import Mathlib

/-!
Shallow embedding of `libraclient/client.go` from libra/libra-client-sdk-go.

The client keeps one piece of mutable state, the last observed ledger state
(`client.last`), updated only through `UpdateLastResponseLedgerState`.
Stateful Go methods are embedded as pure functions that take the stored
`LedgerState` and return the updated one.  `uint64` values are modelled as
`Nat`; the only operation where 64-bit wrap-around matters is the product
`expirationTimeSec * 1_000_000` in `WaitForTransaction`, which is taken
modulo `2 ^ 64` explicitly.
-/

namespace LibraClient

/-- Modulus of Go's `uint64` arithmetic. -/
def UINT64_MOD : Nat := 2 ^ 64

/-- `LedgerState` (client.go lines 64-68): response
`LibraLedgerTimestampusec` and `LibraLedgerVersion`, both `uint64`. -/
structure LedgerState where
  TimestampUsec : Nat
  Version : Nat
deriving DecidableEq, Repr

/-- The errors `call` and its validators can produce (client.go).  Opaque
payloads (transport errors, jsonrpc response errors, unmarshal errors) are
modelled as `Nat` tags: the client never inspects their contents. -/
inductive CallError where
  | transport (e : Nat)
  | chainIDMismatch (expected got : Nat)
  | staleVersion (expected got : Nat)
  | staleTimestamp (expected got : Nat)
  | response (e : Nat)
  | unmarshal (e : Nat)
deriving DecidableEq, Repr

/-- `client.validateChainID` (client.go lines 227-232): compares the
client's configured chain id against the response's chain id. -/
def validateChainID (cChainID chainID : Nat) : Option CallError :=
  if cChainID ≠ chainID then some (.chainIDMismatch cChainID chainID) else none

/-- `client.validateAndUpdateState` (client.go lines 234-255).  The Go
method reads `c.last`, possibly errors, and otherwise stores `state` via
`UpdateLastResponseLedgerState`; here it returns the error (if any)
together with the stored state after the call. -/
def validateAndUpdateState (last state : LedgerState) :
    Option CallError × LedgerState :=
  if last.Version = state.Version ∧ last.TimestampUsec = state.TimestampUsec then
    (none, last)
  else if last.Version > state.Version then
    (some (.staleVersion last.Version state.Version), last)
  else if last.TimestampUsec > state.TimestampUsec then
    (some (.staleTimestamp last.TimestampUsec state.TimestampUsec), last)
  else
    (none, state)

/-- Folding a sequence of candidate updates through
`validateAndUpdateState`, keeping the stored state (errors are returned to
the individual callers and do not stop later calls). -/
def runUpdates (last : LedgerState) (cands : List LedgerState) : LedgerState :=
  cands.foldl (fun l c => (validateAndUpdateState l c).2) last

/-- The response metadata `call` consumes (client.go lines 208-223):
`resp.LibraChainID`, `resp.LibraLedgerTimestampusec`,
`resp.LibraLedgerVersion` and `resp.Error`.  The jsonrpc result payload is
handled by `resp.UnmarshalResult`, which lives in the external `jsonrpc`
package; its outcome is a parameter of `call` below. -/
structure Response where
  LibraChainID : Nat
  LibraLedgerTimestampusec : Nat
  LibraLedgerVersion : Nat
  Error : Option Nat
deriving DecidableEq, Repr

/-- `client.call` (client.go lines 202-225).  `rpcResult` is what
`c.rpc.Call` returned (transport error or a response), `unmarshalResult`
is what `resp.UnmarshalResult(ret)` would return if reached.  The Go
method returns `(ok, err)` and mutates `c.last`; here the stored state
after the call is the second component. -/
def call (cChainID : Nat) (last : LedgerState)
    (rpcResult : Except Nat Response)
    (unmarshalResult : Bool × Option CallError) :
    (Bool × Option CallError) × LedgerState :=
  match rpcResult with
  | .error e => ((false, some (.transport e)), last)
  | .ok resp =>
    match validateChainID cChainID resp.LibraChainID with
    | some e => ((false, some e), last)
    | none =>
      let vu := validateAndUpdateState last
        ⟨resp.LibraLedgerTimestampusec, resp.LibraLedgerVersion⟩
      match vu.1 with
      | some e => ((false, some e), vu.2)
      | none =>
        match resp.Error with
        | some e => ((false, some (.response e)), vu.2)
        | none => (unmarshalResult, vu.2)

/-- `VmStatusExecuted` (client.go line 26). -/
def VmStatusExecuted : String := "executed"

/-- The part of the signed-transaction record `WaitForTransaction` reads:
`txn.Transaction.Signature` (client.go line 100).  The full struct lives
in the types file outside this package's core. -/
structure SignedTransactionData where
  Signature : String
deriving DecidableEq, Repr

/-- The part of the VM status record `WaitForTransaction` reads:
`txn.VmStatus.Type` (client.go line 103).  `Type` is a Lean keyword, so
the field is spelled `type`. -/
structure VmStatus where
  type : String
deriving DecidableEq, Repr

/-- The fields of a `Transaction` that `WaitForTransaction` inspects
(client.go lines 100-107). -/
structure Transaction where
  Transaction : SignedTransactionData
  VmStatus : VmStatus
deriving DecidableEq, Repr

/-- Outcome of one `c.GetAccountTransaction(address, seq, true)` poll
inside `WaitForTransaction` (client.go lines 95-99): an error, a found
transaction, or `nil` (not found). -/
inductive PollLookup where
  | failure (e : Nat)
  | found (txn : Transaction)
  | notFound
deriving DecidableEq, Repr

/-- One loop iteration's observations: the lookup outcome and the value of
`c.LastResponseLedgerState().TimestampUsec` read at line 109 (the lookup
itself routes through `call` and may have advanced the guard). -/
structure PollObservation where
  lookup : PollLookup
  guardTimestampUsec : Nat
deriving DecidableEq, Repr

/-- The possible returns of `WaitForTransaction` (client.go lines 92-115),
as a tagged sum: `(txn, nil)` on success and the four distinct error
returns. -/
inductive WaitResult where
  | ok (txn : Transaction)
  | signatureMismatch
  | executionFailed (status : String)
  | lookupFailure (e : Nat)
  | expired
  | timedOut
deriving DecidableEq, Repr

/-- The loop body of `WaitForTransaction` (client.go lines 94-113), one
list element per iteration the timeout budget allows.  The expiration test
multiplies in `uint64`, hence the `% UINT64_MOD`. -/
def waitLoop (signature : String) (expirationTimeSec : Nat) :
    List PollObservation → WaitResult
  | [] => .timedOut
  | obs :: rest =>
    match obs.lookup with
    | .failure e => .lookupFailure e
    | .found txn =>
      if txn.Transaction.Signature ≠ signature then .signatureMismatch
      else if txn.VmStatus.type ≠ VmStatusExecuted then
        .executionFailed txn.VmStatus.type
      else .ok txn
    | .notFound =>
      if expirationTimeSec * 1000000 % UINT64_MOD ≤ obs.guardTimestampUsec then
        .expired
      else waitLoop signature expirationTimeSec rest

/-- The step interval `time.Millisecond * 500` in nanoseconds
(client.go line 93). -/
def stepNs : Nat := 500 * 1000000

/-- Number of iterations of `for i := 0; i < timeout; i += step`
(client.go line 94) for a non-negative timeout in nanoseconds. -/
def waitIterations (timeoutNs : Nat) : Nat := (timeoutNs + stepNs - 1) / stepNs

/-- `client.WaitForTransaction` (client.go lines 92-115).  `polls` gives
the observation of each would-be iteration; the loop runs through at most
`waitIterations timeoutNs` of them. -/
def WaitForTransaction (signature : String) (expirationTimeSec : Nat)
    (timeoutNs : Nat) (polls : Nat → PollObservation) : WaitResult :=
  waitLoop signature expirationTimeSec
    ((List.range (waitIterations timeoutNs)).map polls)

/-- The operations of the public `Client` interface (client.go lines
30-49) as they act on the stored ledger state.  Every RPC method
(`GetCurrencies` … `Submit`, and each poll of `WaitForTransaction`) goes
through `call`, so one constructor covers them all;
`UpdateLastResponseLedgerState` and `LastResponseLedgerState` are the two
direct accessors. -/
inductive ClientOp where
  | rpcCall (rpcResult : Except Nat Response)
      (unmarshalResult : Bool × Option CallError)
  | updateLastResponseLedgerState (state : LedgerState)
  | lastResponseLedgerState
deriving Repr

/-- Effect of one public-interface operation on the stored ledger state
(client.go lines 78-89 and 202-225). -/
def applyOp (cChainID : Nat) (last : LedgerState) : ClientOp → LedgerState
  | .rpcCall r u => (call cChainID last r u).2
  | .updateLastResponseLedgerState s => s
  | .lastResponseLedgerState => last

/-- Discriminator for the raw setter of the interface. -/
def isRawUpdate : ClientOp → Bool
  | .updateLastResponseLedgerState _ => true
  | _ => false

/-- A rejected update leaves the stored state unchanged. -/
theorem vaus_error_snd (last c : LedgerState)
    (h : (validateAndUpdateState last c).1 ≠ none) :
    (validateAndUpdateState last c).2 = last := by
  unfold validateAndUpdateState at *
  split_ifs at * <;> simp_all

/-- An accepted update stores exactly the candidate (in the no-op branch
the stored state equals the candidate fieldwise, hence as a value). -/
theorem vaus_ok_snd (last c : LedgerState)
    (h : (validateAndUpdateState last c).1 = none) :
    (validateAndUpdateState last c).2 = c := by
  cases last with
  | mk lts lv =>
    cases c with
    | mk cts cv =>
      unfold validateAndUpdateState at *
      split_ifs at * <;> simp_all

/-- One step of `validateAndUpdateState` never decreases the stored
version or timestamp. -/
theorem vaus_mono (last c : LedgerState) :
    last.Version ≤ (validateAndUpdateState last c).2.Version ∧
    last.TimestampUsec ≤ (validateAndUpdateState last c).2.TimestampUsec := by
  unfold validateAndUpdateState
  split_ifs <;> simp_all

/-- A candidate with smaller version or smaller timestamp is rejected and
does not mutate the stored state. -/
theorem vaus_reject (last c : LedgerState)
    (h : c.Version < last.Version ∨ c.TimestampUsec < last.TimestampUsec) :
    (validateAndUpdateState last c).1 ≠ none ∧
    (validateAndUpdateState last c).2 = last := by
  unfold validateAndUpdateState
  split_ifs <;> simp_all

/-- Folding any sequence of candidates never decreases the stored
version or timestamp. -/
theorem runUpdates_mono (cs : List LedgerState) (last : LedgerState) :
    last.Version ≤ (runUpdates last cs).Version ∧
    last.TimestampUsec ≤ (runUpdates last cs).TimestampUsec := by
  induction cs generalizing last with
  | nil => simp [runUpdates]
  | cons c cs ih =>
    have h1 := vaus_mono last c
    have h2 := ih ((validateAndUpdateState last c).2)
    simp only [runUpdates, List.foldl] at *
    exact ⟨le_trans h1.1 h2.1, le_trans h1.2 h2.2⟩

/-- `call` never decreases the stored version or timestamp, whatever the
transport, validation and unmarshal outcomes are. -/
theorem call_snd_mono (cChainID : Nat) (last : LedgerState)
    (r : Except Nat Response) (u : Bool × Option CallError) :
    last.Version ≤ (call cChainID last r u).2.Version ∧
    last.TimestampUsec ≤ (call cChainID last r u).2.TimestampUsec := by
  cases r with
  | error e => simp [call]
  | ok resp =>
    have hm := vaus_mono last
      ⟨resp.LibraLedgerTimestampusec, resp.LibraLedgerVersion⟩
    cases hcid : validateChainID cChainID resp.LibraChainID with
    | some e => simp [call, hcid]
    | none =>
      rcases hv : validateAndUpdateState last
          ⟨resp.LibraLedgerTimestampusec, resp.LibraLedgerVersion⟩ with ⟨err, l2⟩
      rw [hv] at hm
      cases err with
      | some e => simp [call, hcid, hv]; exact hm
      | none =>
        cases hre : resp.Error with
        | some e => simp [call, hcid, hv, hre]; exact hm
        | none => simp [call, hcid, hv, hre]; exact hm

/-- `waitLoop` exhausts its iteration budget exactly when every iteration
neither errored, nor found a transaction, nor met the expiration test. -/
theorem waitLoop_timedOut_iff (sig : String) (e : Nat)
    (l : List PollObservation) :
    waitLoop sig e l = .timedOut ↔
      ∀ obs ∈ l, obs.lookup = .notFound ∧
        ¬ e * 1000000 % UINT64_MOD ≤ obs.guardTimestampUsec := by
  induction l with
  | nil => simp [waitLoop]
  | cons obs rest ih =>
    cases hobs : obs.lookup with
    | failure er => simp [waitLoop, hobs]
    | found txn =>
      simp only [waitLoop, hobs, List.forall_mem_cons]
      split_ifs <;> simp [hobs]
    | notFound =>
      by_cases hc : e * 1000000 % UINT64_MOD ≤ obs.guardTimestampUsec
      · simp [waitLoop, hobs, hc]
      · have hc' : obs.guardTimestampUsec < e * 1000000 % UINT64_MOD :=
          Nat.not_le.mp hc
        simp [waitLoop, hobs, hc, ih, hc']

/-- C1: Through `validateAndUpdateState`, a candidate with a smaller
version or a smaller timestamp than the stored state is rejected (an
error is returned) and the stored state is unchanged; a candidate that is
not rejected replaces the stored state; and along any sequence of updates
the stored version and timestamp are non-decreasing. -/
theorem C1_state_updates_monotone :
    (∀ last c : LedgerState,
      c.Version < last.Version ∨ c.TimestampUsec < last.TimestampUsec →
        (validateAndUpdateState last c).1 ≠ none ∧
        (validateAndUpdateState last c).2 = last) ∧
    (∀ last c : LedgerState,
      (validateAndUpdateState last c).1 = none →
        (validateAndUpdateState last c).2 = c) ∧
    (∀ (last : LedgerState) (cs : List LedgerState),
      last.Version ≤ (runUpdates last cs).Version ∧
      last.TimestampUsec ≤ (runUpdates last cs).TimestampUsec) :=
  ⟨vaus_reject, vaus_ok_snd, fun last cs => runUpdates_mono cs last⟩

/-- Witness for C1 at the spec's own scenario: stored `{ts 100, ver 5}`,
candidate `{ts 90, ver 5}` is rejected and the stored state is kept. -/
theorem C1_state_updates_monotone_witness :
    (validateAndUpdateState ⟨100, 5⟩ ⟨90, 5⟩).1 ≠ none ∧
    (validateAndUpdateState ⟨100, 5⟩ ⟨90, 5⟩).2 = ⟨100, 5⟩ :=
  C1_state_updates_monotone.1 ⟨100, 5⟩ ⟨90, 5⟩ (Or.inr (by decide))

/-- C2: When a poll finds a transaction, `WaitForTransaction` succeeds
with it iff its signature equals the expected one and its VM status type
is `"executed"`; a differing signature gives the signature-mismatch
outcome regardless of the execution status, and a matching signature with
a non-executed status gives the execution-failed outcome. -/
theorem C2_found_transaction_classification :
    ∀ (sig : String) (e : Nat) (txn : Transaction) (ts : Nat)
      (rest : List PollObservation),
      (waitLoop sig e (⟨.found txn, ts⟩ :: rest) = .ok txn ↔
        txn.Transaction.Signature = sig ∧
        txn.VmStatus.type = VmStatusExecuted) ∧
      (txn.Transaction.Signature ≠ sig →
        waitLoop sig e (⟨.found txn, ts⟩ :: rest) = .signatureMismatch) ∧
      (txn.Transaction.Signature = sig →
        txn.VmStatus.type ≠ VmStatusExecuted →
        waitLoop sig e (⟨.found txn, ts⟩ :: rest) =
          .executionFailed txn.VmStatus.type) := by
  intro sig e txn ts rest
  simp only [waitLoop]
  split_ifs <;> simp_all

/-- Witness for C2 at the spec's own scenario: found signature `"xyz"`,
expected `"abc"`, status `"executed"` still gives signature-mismatch. -/
theorem C2_found_transaction_classification_witness :
    waitLoop "abc" 1000 [⟨.found ⟨⟨"xyz"⟩, ⟨"executed"⟩⟩, 0⟩] =
      .signatureMismatch :=
  (C2_found_transaction_classification "abc" 1000
    ⟨⟨"xyz"⟩, ⟨"executed"⟩⟩ 0 []).2.1 (by decide)

/-- C3: When a poll finds no transaction, the iteration returns the
expired outcome exactly when `expirationTimeSec * 1_000_000` (in `uint64`
arithmetic) is less than or equal to the guard's current ledger timestamp
in microseconds — regardless of how much timeout budget (`rest`) is left —
and otherwise continues polling. -/
theorem C3_expiration_boundary :
    ∀ (sig : String) (e ts : Nat) (rest : List PollObservation),
      (e * 1000000 % UINT64_MOD ≤ ts →
        waitLoop sig e (⟨.notFound, ts⟩ :: rest) = .expired) ∧
      (¬ e * 1000000 % UINT64_MOD ≤ ts →
        waitLoop sig e (⟨.notFound, ts⟩ :: rest) =
          waitLoop sig e rest) := by
  intro sig e ts rest
  constructor <;> intro h <;> simp [waitLoop, h]

/-- Witness for C3 at the expiration boundary: `3 * 1_000_000` equals the
guard timestamp exactly, with timeout budget left, and the wait expires. -/
theorem C3_expiration_boundary_witness :
    waitLoop "abc" 3 [⟨.notFound, 3000000⟩, ⟨.notFound, 0⟩] = .expired :=
  (C3_expiration_boundary "abc" 3 3000000 [⟨.notFound, 0⟩]).1 (by decide)

/-- C4: A response whose chain id differs from the client's fails with
the chain-id-mismatch error, for every candidate version and timestamp
and before any staleness comparison, and the stored state is unchanged. -/
theorem C4_chain_mismatch_precedes_staleness :
    ∀ (cChainID : Nat) (last : LedgerState) (resp : Response)
      (unm : Bool × Option CallError),
      resp.LibraChainID ≠ cChainID →
        call cChainID last (.ok resp) unm =
          ((false, some (.chainIDMismatch cChainID resp.LibraChainID)),
            last) := by
  intro cChainID last resp unm h
  simp [call, validateChainID, Ne.symm h]

/-- Witness for C4: configured chain id 1, response chain id 2, a
candidate strictly older than the stored state, still the mismatch error
and an untouched stored state. -/
theorem C4_chain_mismatch_precedes_staleness_witness :
    call 1 ⟨100, 5⟩ (.ok ⟨2, 0, 0, none⟩) (true, none) =
      ((false, some (.chainIDMismatch 1 2)), ⟨100, 5⟩) :=
  C4_chain_mismatch_precedes_staleness 1 ⟨100, 5⟩ ⟨2, 0, 0, none⟩
    (true, none) (by decide)

/-- C5 counterexample: `UpdateLastResponseLedgerState` is itself an
operation of the public `Client` interface (client.go line 48) and
overwrites the stored state without validation: from stored
`{ts 100, ver 5}` it installs `{ts 0, ver 0}`, decreasing both fields. -/
theorem C5_counterexample_raw_setter :
    (applyOp 1 ⟨100, 5⟩ (.updateLastResponseLedgerState ⟨0, 0⟩)).Version <
      (LedgerState.mk 100 5).Version ∧
    (applyOp 1 ⟨100, 5⟩
        (.updateLastResponseLedgerState ⟨0, 0⟩)).TimestampUsec <
      (LedgerState.mk 100 5).TimestampUsec := by
  decide

/-- C5 amended: every public-interface operation except the exposed raw
setter `UpdateLastResponseLedgerState` (that is, every RPC call — all of
which route through `call` — and the read-only accessor) leaves the
stored version and timestamp non-decreasing. -/
theorem C5_amended_interface_monotone :
    ∀ (cChainID : Nat) (last : LedgerState) (op : ClientOp),
      isRawUpdate op = false →
        last.Version ≤ (applyOp cChainID last op).Version ∧
        last.TimestampUsec ≤ (applyOp cChainID last op).TimestampUsec := by
  intro cChainID last op h
  cases op with
  | rpcCall r u => exact call_snd_mono cChainID last r u
  | updateLastResponseLedgerState s => simp [isRawUpdate] at h
  | lastResponseLedgerState => simp [applyOp]

/-- Witness for C5's amended statement: an RPC call carrying a fresher
ledger state advances the stored state, never decreasing it. -/
theorem C5_amended_interface_monotone_witness :
    (LedgerState.mk 100 5).Version ≤
      (applyOp 1 ⟨100, 5⟩ (.rpcCall (.ok ⟨1, 200, 6, none⟩)
        (true, none))).Version ∧
    (LedgerState.mk 100 5).TimestampUsec ≤
      (applyOp 1 ⟨100, 5⟩ (.rpcCall (.ok ⟨1, 200, 6, none⟩)
        (true, none))).TimestampUsec :=
  C5_amended_interface_monotone 1 ⟨100, 5⟩
    (.rpcCall (.ok ⟨1, 200, 6, none⟩) (true, none)) (by decide)

/-- C6: `WaitForTransaction` returns the timed-out outcome exactly when
every iteration its timeout budget allows found no transaction and did
not meet the expiration test; equivalently, whenever some reached
iteration errors, finds a transaction, or observes expiration, the result
is not timed-out. -/
theorem C6_timedOut_characterization :
    ∀ (sig : String) (e timeoutNs : Nat) (polls : Nat → PollObservation),
      WaitForTransaction sig e timeoutNs polls = .timedOut ↔
        ∀ i < waitIterations timeoutNs,
          (polls i).lookup = .notFound ∧
          ¬ e * 1000000 % UINT64_MOD ≤ (polls i).guardTimestampUsec := by
  intro sig e t polls
  rw [WaitForTransaction, waitLoop_timedOut_iff]
  constructor
  · intro h i hi
    exact h (polls i) (List.mem_map_of_mem _ (List.mem_range.mpr hi))
  · intro h obs hobs
    rcases List.mem_map.mp hobs with ⟨i, hi, rfl⟩
    exact h i (List.mem_range.mp hi)

/-- Witness for C6: with a one-step timeout budget whose only poll finds
the transaction, the result is not timed-out (here: success). -/
theorem C6_timedOut_characterization_witness :
    ¬ WaitForTransaction "abc" 1000 stepNs
        (fun _ => ⟨.found ⟨⟨"abc"⟩, ⟨"executed"⟩⟩, 0⟩) = .timedOut :=
  fun h =>
    absurd
      (((C6_timedOut_characterization "abc" 1000 stepNs
          (fun _ => ⟨.found ⟨⟨"abc"⟩, ⟨"executed"⟩⟩, 0⟩)).mp h) 0 (by decide)).1
      (by decide)

/-- C7: In `call`, validation runs before any result or response error is
handed back: a chain-id mismatch or a staleness error is returned with
`ok = false`, independently of the unmarshal outcome (the payload is not
delivered), and with the stored state unchanged; a response that passes
validation advances the stored state to the response's ledger state even
when the response carries an RPC error. -/
theorem C7_every_call_validated :
    ∀ (cChainID : Nat) (last : LedgerState) (resp : Response)
      (unm : Bool × Option CallError),
      (∀ e, validateChainID cChainID resp.LibraChainID = some e →
        call cChainID last (.ok resp) unm = ((false, some e), last)) ∧
      (validateChainID cChainID resp.LibraChainID = none →
        ∀ e, (validateAndUpdateState last
            ⟨resp.LibraLedgerTimestampusec, resp.LibraLedgerVersion⟩).1 =
              some e →
          call cChainID last (.ok resp) unm = ((false, some e), last)) ∧
      (validateChainID cChainID resp.LibraChainID = none →
        (validateAndUpdateState last
            ⟨resp.LibraLedgerTimestampusec, resp.LibraLedgerVersion⟩).1 =
              none →
        ∀ e, resp.Error = some e →
          call cChainID last (.ok resp) unm =
            ((false, some (.response e)),
              ⟨resp.LibraLedgerTimestampusec, resp.LibraLedgerVersion⟩)) := by
  intro cChainID last resp unm
  refine ⟨fun e he => ?_, fun hcid e he => ?_, fun hcid hv e he => ?_⟩
  · simp [call, he]
  · have h2 := vaus_error_snd last
      ⟨resp.LibraLedgerTimestampusec, resp.LibraLedgerVersion⟩ (by simp [he])
    rcases hv : validateAndUpdateState last
        ⟨resp.LibraLedgerTimestampusec, resp.LibraLedgerVersion⟩ with ⟨err, l2⟩
    rw [hv] at he h2
    simp at he h2
    simp [call, hcid, hv, he, h2]
  · have h2 := vaus_ok_snd last
      ⟨resp.LibraLedgerTimestampusec, resp.LibraLedgerVersion⟩ hv
    rcases hv2 : validateAndUpdateState last
        ⟨resp.LibraLedgerTimestampusec, resp.LibraLedgerVersion⟩ with ⟨err, l2⟩
    rw [hv2] at hv h2
    simp at hv h2
    simp [call, hcid, hv2, hv, h2, he]

/-- Witness for C7: a stale response (stored version 5, candidate
version 4) is rejected with the staleness error and the stored state is
kept, whatever the unmarshal outcome would have been. -/
theorem C7_every_call_validated_witness :
    call 1 ⟨100, 5⟩ (.ok ⟨1, 100, 4, none⟩) (true, none) =
      ((false, some (.staleVersion 5 4)), ⟨100, 5⟩) :=
  (C7_every_call_validated 1 ⟨100, 5⟩ ⟨1, 100, 4, none⟩ (true, none)).2.1
    (by decide) (.staleVersion 5 4) (by decide)

/-- C8: A candidate equal to the stored state in both fields is accepted
as a no-op (no error, stored state unchanged), and applying an accepted
state a second time is again an accepted no-op. -/
theorem C8_noop_idempotent :
    (∀ s : LedgerState, validateAndUpdateState s s = (none, s)) ∧
    (∀ last c : LedgerState,
      (validateAndUpdateState last c).1 = none →
        validateAndUpdateState (validateAndUpdateState last c).2 c =
          (none, (validateAndUpdateState last c).2)) := by
  constructor
  · intro s
    simp [validateAndUpdateState]
  · intro last c h
    rw [vaus_ok_snd last c h]
    simp [validateAndUpdateState]

/-- Witness for C8: after accepting `{ts 100, ver 5}` from `{ts 0,
ver 0}`, re-applying the same state is an accepted no-op. -/
theorem C8_noop_idempotent_witness :
    validateAndUpdateState (validateAndUpdateState ⟨0, 0⟩ ⟨100, 5⟩).2
        ⟨100, 5⟩ =
      (none, (validateAndUpdateState ⟨0, 0⟩ ⟨100, 5⟩).2) :=
  C8_noop_idempotent.2 ⟨0, 0⟩ ⟨100, 5⟩ (by decide)

/-- C9: A polling iteration whose account-transaction lookup errors
terminates the wait immediately with that error, whatever iteration
budget (`rest`) remains — no retry, no further polling. -/
theorem C9_lookup_error_fatal :
    ∀ (sig : String) (e errCode ts : Nat) (rest : List PollObservation),
      waitLoop sig e (⟨.failure errCode, ts⟩ :: rest) =
        .lookupFailure errCode := by
  intro sig e errCode ts rest
  simp [waitLoop]

/-- C10: The expiration test multiplies `expirationTimeSec` by 1_000_000
in `uint64` modular arithmetic, so for every `expirationTimeSec` above
`(2^64 - 1) / 1_000_000` the product wraps (the computed value is
strictly below the true product); concretely, with expiration
18446744073710 seconds (far future) and a guard timestamp of one second,
the wait reports expired although the true expiration exceeds it. -/
theorem C10_expiration_uint64_wraparound :
    (∀ e : Nat, (UINT64_MOD - 1) / 1000000 < e →
      e * 1000000 % UINT64_MOD < e * 1000000) ∧
    (WaitForTransaction "sig" 18446744073710 stepNs
        (fun _ => ⟨.notFound, 1000000⟩) = .expired ∧
      1000000 < 18446744073710 * 1000000) := by
  refine ⟨fun e he => ?_, by decide, by norm_num⟩
  have h1 : e * 1000000 % UINT64_MOD < UINT64_MOD :=
    Nat.mod_lt _ (by norm_num [UINT64_MOD])
  have h2 : UINT64_MOD < e * 1000000 := by
    have h3 : 18446744073709 < e := by
      norm_num [UINT64_MOD] at he
      omega
    calc UINT64_MOD < 18446744073710 * 1000000 := by norm_num [UINT64_MOD]
      _ ≤ e * 1000000 := Nat.mul_le_mul_right _ (by omega)
  omega

/-- Witness for C10: at `expirationTimeSec = 18446744073710`, just above
the wrap threshold, the computed product is strictly below the true one. -/
theorem C10_expiration_uint64_wraparound_witness :
    18446744073710 * 1000000 % UINT64_MOD < 18446744073710 * 1000000 :=
  C10_expiration_uint64_wraparound.1 18446744073710
    (by norm_num [UINT64_MOD])

end LibraClient
